import Mathlib

/-!
Verification of the smart-quiz-generator text-to-question pipeline
(`src/backend/processors.py`, `validator.py`, `generator.py`,
`gemini_generator.py`, `prompts.py`) against its specification.

Python strings are modelled as Lean `String` / `List Char` (the sources are
ASCII); Python `re` operations used by the code are implemented directly as
total functions on `List Char`.  The external text-generation capability is
modelled as an oracle parameter (`Option String`: `none` models a raised
exception), `random.shuffle` as an arbitrary permutation parameter, and the
float-valued TF-IDF ordering as an arbitrary permutation of the frequency
table, since the claims under study are independent of the chosen order.
-/

/-- Whitespace class of Python's `str.strip()` / `\s` (ASCII fragment). -/
def pyIsSpace (c : Char) : Bool :=
  c = ' ' || c = '\t' || c = '\n' || c = '\x0d' || c = '\x0b' || c = '\x0c'

/-- Python's `\w` word-character class (ASCII fragment). -/
def isWordChar (c : Char) : Bool := c.isAlpha || c.isDigit || c = '_'

/-- Python `str.strip()`: remove leading and trailing whitespace. -/
def pyStrip (l : List Char) : List Char :=
  ((l.dropWhile pyIsSpace).reverse.dropWhile pyIsSpace).reverse

/-- Python `str.strip(chars)`: remove leading and trailing characters of `cs`. -/
def pyStripChars (cs : List Char) (l : List Char) : List Char :=
  ((l.dropWhile cs.contains).reverse.dropWhile cs.contains).reverse

/-- Python `str.split()` helper: accumulate the current word (reversed). -/
def wordsOfAux : List Char → List Char → List (List Char)
  | [], cur => if cur.isEmpty then [] else [cur.reverse]
  | c :: rest, cur =>
    if pyIsSpace c then
      if cur.isEmpty then wordsOfAux rest [] else cur.reverse :: wordsOfAux rest []
    else wordsOfAux rest (c :: cur)

/-- Python `str.split()` (no argument): whitespace-separated words, no empties. -/
def wordsOf (l : List Char) : List (List Char) := wordsOfAux l []

/-- Boolean substring test, modelling Python's `needle in hay` on strings. -/
def startsL : List Char → List Char → Bool
  | [], _ => true
  | _ :: _, [] => false
  | a :: as, b :: bs => a = b && startsL as bs

/-- `infixOfL needle hay` is true iff `needle` occurs contiguously in `hay`. -/
def infixOfL (needle : List Char) : List Char → Bool
  | [] => needle.isEmpty
  | c :: rest => startsL needle (c :: rest) || infixOfL needle rest

/-- Python `str.lower()` (ASCII), implemented on the character list so that
it reduces in the kernel. -/
def pyLower (s : String) : String := ⟨s.data.map Char.toLower⟩

/-- Python `str.endswith('?')`, implemented on the character list. -/
def endsQmark (s : String) : Bool := s.data.getLast? = some '?'

/-! ## Validator (`src/backend/validator.py`) -/

/-- A question record as consumed by `validate_question_quality`
(`question.get("question", "")` and friends, validator.py lines 20-23). -/
structure QInput where
  question : String
  options : List String
  correct_answer : String
  explanation : String
deriving DecidableEq

/-- Values stored in the `quality_metrics` dict (ints, strings, booleans). -/
inductive MetricVal where
  | int (n : ℤ)
  | str (s : String)
  | bool (b : Bool)
deriving DecidableEq

/-- The dict returned by `validate_question_quality`; `feedback` is the
`"; "`-joined string of the collected feedback messages. -/
structure ValidationResult where
  score : ℤ
  feedback : String
  quality_metrics : List (String × MetricVal)
deriving DecidableEq

/-- `check_bloom_level` (validator.py lines 92-117): lowercase substring match
against six keyword sets, priority create > evaluate > analyze > apply >
understand > remember, default "understand". -/
def check_bloom_level (question_text : String) : String :=
  let ql := pyLower question_text
  let has := fun (kws : List String) => kws.any (fun k => infixOfL k.data ql.data)
  if has ["create", "design", "develop", "formulate", "construct"] then "create"
  else if has ["evaluate", "assess", "judge", "critique", "justify"] then "evaluate"
  else if has ["analyze", "examine", "compare", "contrast", "differentiate"] then "analyze"
  else if has ["apply", "demonstrate", "solve", "use", "implement"] then "apply"
  else if has ["explain", "describe", "summarize", "interpret", "compare"] then "understand"
  else if has ["what", "when", "where", "who", "define", "list", "name", "identify"] then "remember"
  else "understand"

/-- `score_distractor_quality` (validator.py lines 119-153) in the state where
the sentence-embedding model is unavailable (`SIMILARITY_MODEL_LOADED = False`,
lines 121-122): the fixed default 70 is returned before any embedding work. -/
def score_distractor_quality_noModel (_options : List String) (_correct : String) : ℤ := 70

/-- `validate_question_quality` (validator.py lines 14-90), parameterised by
`dScore`, the distractor-quality sub-scorer (`score_distractor_quality`), whose
embedding-model arithmetic is external to the claims.  The mean-option-length
test `avg_option_length < 5` (a float comparison, with `avg = 0` for an empty
options list) is encoded division-free: for `options ≠ []` it is
`sum < 5 * count`, and for `options = []` it holds since `0 < 5`. -/
def validate_question_quality (dScore : List String → String → ℤ) (q : QInput) :
    ValidationResult :=
  let question_text := q.question
  let options := q.options
  let correct_answer := q.correct_answer
  let explanation := q.explanation
  let p1 : ℤ × List String :=
    if ¬ endsQmark question_text then
      (100 - 10, ["Question should end with question mark"]) else (100, [])
  let p2 : ℤ × List String :=
    if question_text.length < 10 then
      (p1.1 - 20, p1.2 ++ ["Question too short"]) else p1
  let p3 : ℤ × List String :=
    if question_text.length > 200 then
      (p2.1 - 10, p2.2 ++ ["Question too long"]) else p2
  let p4 : ℤ × List String :=
    if options.length ≠ 4 then
      (p3.1 - 30, p3.2 ++ ["Should have 4 options, found " ++ toString options.length])
    else p3
  let p5 : ℤ × List String :=
    if ¬ options.contains correct_answer then
      (p4.1 - 40, p4.2 ++ ["Correct answer not found in options"]) else p4
  let p6 : ℤ × List String :=
    if options.dedup.length ≠ options.length then
      (p5.1 - 25, p5.2 ++ ["Duplicate options found"]) else p5
  let avgLt5 : Bool :=
    if options.isEmpty then true
    else (options.map String.length).sum < 5 * options.length
  let p7 : ℤ × List String :=
    if avgLt5 then (p6.1 - 15, p6.2 ++ ["Options too short"]) else p6
  let p8 : ℤ × List String :=
    if explanation.length < 10 then
      (p7.1 - 10, p7.2 ++ ["Explanation too short"]) else p7
  let distractorPart : ℤ × List String × List (String × MetricVal) :=
    if options.length ≥ 4 then
      let ds := dScore options correct_answer
      if ds < 50 then
        (p8.1 - 20, p8.2 ++ ["Poor quality distractors"], [("distractor_quality", .int ds)])
      else (p8.1, p8.2, [("distractor_quality", .int ds)])
    else (p8.1, p8.2, [])
  let bloom := check_bloom_level question_text
  let finalScore : ℤ := max 0 (min 100 distractorPart.1)
  let metrics : List (String × MetricVal) :=
    distractorPart.2.2 ++ [("bloom_level", .str bloom)] ++
      [("question_length", .int question_text.length),
       ("option_count", .int options.length),
       ("explanation_length", .int explanation.length),
       ("has_question_mark", .bool (endsQmark question_text)),
       ("unique_options", .bool (options.dedup.length = options.length))]
  let fb := distractorPart.2.1
  { score := finalScore,
    feedback := if fb.isEmpty then "Good quality question" else String.intercalate "; " fb,
    quality_metrics := metrics }

/-- `validate_multiple_questions` (validator.py lines 155-161). -/
def validate_multiple_questions (dScore : List String → String → ℤ)
    (questions : List QInput) : List ValidationResult :=
  questions.map (validate_question_quality dScore)

/-! ## Text processing (`src/backend/processors.py`) -/

/-- `re.sub(r'\s+', ' ', text)`: each maximal whitespace run becomes one space.
The Boolean argument records whether the previous character was whitespace. -/
def collapseWsAux : Bool → List Char → List Char
  | _, [] => []
  | prevWs, c :: rest =>
    if pyIsSpace c then
      if prevWs then collapseWsAux true rest else ' ' :: collapseWsAux true rest
    else c :: collapseWsAux false rest

/-- Character class kept by `re.sub(r'[^\w\s.!?,-]', '', text)`. -/
def keepChar (c : Char) : Bool :=
  isWordChar c || pyIsSpace c || c = '.' || c = '!' || c = '?' || c = ','  || c = '-'

/-- The three substitutions `[.]{2,} → .`, `[!]{2,} → !`, `[?]{2,} → ?`:
adjacent equal occurrences of a terminal punctuation mark are collapsed (the
three independent single-character substitutions commute, so one pass over the
list computes their composition). -/
def collapsePunct : List Char → List Char
  | [] => []
  | [c] => [c]
  | c :: d :: rest =>
    if (c = '.' || c = '!' || c = '?') && c = d then collapsePunct (d :: rest)
    else c :: collapsePunct (d :: rest)

/-- `re.sub(r'([.!?])([A-Z])', r'\1 \2', text)`: insert a space between a
terminal punctuation mark and an immediately following uppercase letter; the
scan resumes after each (non-overlapping) match, exactly as `re.sub` does. -/
def spaceAfterPunct : List Char → List Char
  | c :: d :: rest =>
    if (c = '.' || c = '!' || c = '?') && ('A' ≤ d && d ≤ 'Z') then
      c :: ' ' :: d :: spaceAfterPunct rest
    else c :: spaceAfterPunct (d :: rest)
  | l => l

/-- `clean_text` (processors.py lines 46-62). -/
def clean_text (text : String) : String :=
  ⟨pyStrip (spaceAfterPunct (collapsePunct
    ((collapseWsAux false text.data).filter keepChar)))⟩

/-- Terminal punctuation, the split class of `re.split(r'[.!?]+', text)`. -/
def isPunct (c : Char) : Bool := c = '.' || c = '!' || c = '?'

/-- Split at every single terminal punctuation mark.  `re.split(r'[.!?]+', s)`
splits at maximal punctuation runs; splitting at every mark instead introduces
extra empty fragments between adjacent marks, which the subsequent
`[s.strip() for s in sentences if s.strip()]` filter removes in both readings,
so the composed result is identical. -/
def splitEachPunct : List Char → List Char → List (List Char)
  | [], cur => [cur.reverse]
  | c :: rest, cur =>
    if isPunct c then cur.reverse :: splitEachPunct rest []
    else splitEachPunct rest (c :: cur)

/-- Sentence list of `preprocess_text` (processors.py lines 12-13): split the
cleaned text on terminal punctuation, strip each fragment, keep non-empties. -/
def sentencesOf (cleaned : String) : List (List Char) :=
  ((splitEachPunct cleaned.data []).map pyStrip).filter (fun s => ¬ s.isEmpty)

/-- State of the chunk-accumulation loop (processors.py lines 16-33). -/
structure ChunkState where
  chunks : List (List Char)
  cur : List (List Char)
  cnt : ℕ

/-- `'. '.join(current_chunk) + '.'` (processors.py lines 26 and 37). -/
def joinSentences (cur : List (List Char)) : List Char :=
  List.intercalate ('.' :: ' ' :: []) cur ++ ['.']

/-- One iteration of the sentence loop of `preprocess_text`
(processors.py lines 20-33). -/
def chunkStep (st : ChunkState) (sentence : List Char) : ChunkState :=
  let sentence_word_count := (wordsOf sentence).length
  if st.cnt + sentence_word_count > 300 ∧ ¬ st.cur.isEmpty then
    { chunks := if st.cnt ≥ 200 then st.chunks ++ [joinSentences st.cur] else st.chunks,
      cur := [sentence],
      cnt := sentence_word_count }
  else
    { chunks := st.chunks, cur := st.cur ++ [sentence],
      cnt := st.cnt + sentence_word_count }

/-- `preprocess_text` (processors.py lines 6-44). -/
def preprocess_text (text : String) : List String :=
  let cleaned := clean_text text
  let sentences := sentencesOf cleaned
  let st := sentences.foldl chunkStep ⟨[], [], 0⟩
  let chunks :=
    if ¬ st.cur.isEmpty ∧ st.cnt ≥ 200 then st.chunks ++ [joinSentences st.cur]
    else st.chunks
  let chunks := if chunks.isEmpty then [cleaned.data] else chunks
  chunks.map List.asString

/-- Total word count of the sentence fragments of a cleaned text; the running
accumulator `current_word_count` of `preprocess_text` never exceeds it. -/
def sentenceWordSum (cleaned : String) : ℕ :=
  ((sentencesOf cleaned).map (fun s => (wordsOf s).length)).sum

/-- Maximal word-character runs of a character list (reversed accumulator). -/
def wordRunsAux : List Char → List Char → List (List Char)
  | [], cur => if cur.isEmpty then [] else [cur.reverse]
  | c :: rest, cur =>
    if isWordChar c then wordRunsAux rest (c :: cur)
    else if cur.isEmpty then wordRunsAux rest []
    else cur.reverse :: wordRunsAux rest []

/-- `re.findall(r'\b[a-zA-Z]{2,}\b', s)`: a match is a maximal `\w`-run that
consists of letters only and has length ≥ 2 (an alphabetic sub-run of a longer
`\w`-run containing digits or underscores has no word boundary and does not
match). -/
def findTokens (l : List Char) : List (List Char) :=
  (wordRunsAux l []).filter (fun w => w.all Char.isAlpha && decide (2 ≤ w.length))

/-- The fixed stop-word set of `extract_key_concepts`
(processors.py lines 70-79). -/
def stop_words : List String :=
  ["the", "a", "an", "and", "or", "but", "in", "on", "at", "to", "for", "of", "with", "by",
   "is", "are", "was", "were", "be", "been", "being", "have", "has", "had", "do", "does", "did",
   "will", "would", "could", "should", "may", "might", "can", "this", "that", "these", "those",
   "i", "you", "he", "she", "it", "we", "they", "me", "him", "her", "us", "them", "my", "your",
   "his", "its", "our", "their", "from", "up", "about", "into", "through", "during", "before",
   "after", "above", "below", "between", "among", "around", "near", "far", "here", "there",
   "where", "when", "why", "how", "what", "which", "who", "whom", "whose", "if", "unless",
   "while", "although", "because", "since", "so", "than", "such", "both", "either", "neither"]

/-- The alphabetic tokens of the cleaned, lowercased input
(`re.findall(r'\b[a-zA-Z]{2,}\b', clean_text(text.lower()))`,
processors.py lines 67 and 82). -/
def tokensOf (text : String) : List String :=
  (findTokens (clean_text (pyLower text)).data).map List.asString

/-- `meaningful_words` (processors.py line 85): tokens not in the stop-word
set and of length > 2. -/
def meaningful_words (text : String) : List String :=
  (tokensOf text).filter (fun w => !(stop_words.contains w) && decide (2 < w.length))

/-- `extract_key_concepts` (processors.py lines 64-108), parameterised by
`rank`, which models `sorted(scores.items(), key=lambda x: x[1],
reverse=True)`: the TF-IDF scores are float values (`math.log`), so the sort
is modelled as an arbitrary permutation of the frequency table — every claim
under study is invariant under the chosen order.  `word_freq = Counter(...)`
has one entry per distinct meaningful word. -/
def extract_key_concepts (rank : List (String × ℕ) → List (String × ℕ))
    (text : String) : List String :=
  let meaningful := meaningful_words text
  let word_freq := meaningful.dedup.map (fun w => (w, meaningful.count w))
  let top_concepts := (rank word_freq).take 10
  top_concepts.map Prod.fst

/-! ## Flan-T5 generator (`src/backend/generator.py`) -/

/-- `ENHANCED_DISTRACTOR_PROMPTS[...]` with the format fields substituted
(prompts.py lines 52-56, 137-148); unknown kinds fall back to
`DISTRACTOR_PROMPT` (prompts.py line 8). -/
def get_distractor_prompt (distractor_type correct_answer context : String) : String :=
  if distractor_type = "conceptual" then
    "Generate 3 incorrect but conceptually related answers for \x27" ++ correct_answer ++
      "\x27. Make them plausible but clearly wrong when analyzed. Context: " ++ context
  else if distractor_type = "factual" then
    "Generate 3 incorrect but factually similar answers for \x27" ++ correct_answer ++
      "\x27. Use related numbers, dates, or names that could confuse students. Context: " ++ context
  else if distractor_type = "analytical" then
    "Generate 3 incorrect but logically structured answers for \x27" ++ correct_answer ++
      "\x27. Make them sound reasonable but contain subtle errors. Context: " ++ context
  else
    "Generate 3 incorrect but plausible answers for: " ++ correct_answer ++
      " Context: " ++ context

/-- Distractor style selection of `_generate_enhanced_distractors`
(generator.py lines 129-135). -/
def distractor_type_for (difficulty : String) : String :=
  if pyLower difficulty = "easy" then "factual"
  else if pyLower difficulty = "hard" then "analytical"
  else "conceptual"

/-- The `while len(distractors) < 3` padding loop (generator.py lines
156-158), with structural fuel: each iteration appends exactly one element,
so from any starting list the loop terminates within three iterations and a
fuel of 3 computes its exact result (while letting the kernel reduce it). -/
def pad_distractors_loop : ℕ → List String → List String
  | 0, l => l
  | fuel + 1, l =>
    if l.length < 3 then
      pad_distractors_loop fuel (l ++ ["Additional option " ++ toString (l.length + 1)])
    else l

/-- `while len(distractors) < 3: distractors.append(...)`
(generator.py lines 156-158). -/
def pad_distractors (l : List String) : List String := pad_distractors_loop 3 l

/-- One iteration of the `for i in range(3)` loop of
`_generate_enhanced_distractors` (generator.py lines 140-154).  `gen i prompt`
models the `self._generate_text(distractor_prompt, max_length=50)` call of
iteration `i`: `some t` is a returned string, `none` a raised exception (the
`except` branch appends `f"Option {chr(66 + i)}"`). -/
def distractorStep (gen : ℕ → String → Option String) (prompt correct_answer : String)
    (distractors : List String) (i : ℕ) : List String :=
  match gen i prompt with
  | some t =>
    let distractor : String := ⟨pyStrip t.data⟩
    if distractor ≠ "" ∧ distractor ≠ correct_answer ∧ ¬ distractors.contains distractor then
      distractors ++ [distractor]
    else distractors ++ ["Alternative option " ++ toString (i + 1)]
  | none => distractors ++ ["Option " ++ String.singleton (Char.ofNat (66 + i))]

/-- `_generate_enhanced_distractors` (generator.py lines 125-160).
`_subject_area` is accepted and unused, exactly as in the source. -/
def _generate_enhanced_distractors (gen : ℕ → String → Option String)
    (correct_answer context difficulty _subject_area : String) : List String :=
  let distractor_type := distractor_type_for difficulty
  let prompt := get_distractor_prompt distractor_type correct_answer context
  let distractors := [0, 1, 2].foldl (distractorStep gen prompt correct_answer) []
  (pad_distractors distractors).take 3

/-- Option assembly of the model path of `generate_mcq` (generator.py lines
84-92): the raw answer is stripped, three distractors are generated, and
`options = [correct_answer] + distractors` is passed to `random.shuffle`,
modelled by the `shuffle` parameter (theorems assume it permutes its input;
the identity is one of its possible outcomes).  Returns the
`(correct_answer, options)` pair of the assembled question record. -/
def model_path_options (shuffle : List String → List String)
    (gen : ℕ → String → Option String)
    (raw_answer context difficulty subject_area : String) : String × List String :=
  let correct_answer : String := ⟨pyStrip raw_answer.data⟩
  let distractors :=
    _generate_enhanced_distractors gen correct_answer context difficulty subject_area
  (correct_answer, shuffle (correct_answer :: distractors))

/-- The question dict built by `_generate_mock_questions`
(generator.py lines 300-307). -/
structure MockQuestion where
  question : String
  options : List String
  correct_answer : String
  explanation : String
  difficulty : String
  bloom_level : String
deriving DecidableEq

/-- `key_terms` of `_generate_mock_questions` (generator.py line 277):
words of length > 5, each stripped of `'.,!?'` at both ends, first ten. -/
def mock_key_terms (text : String) : List String :=
  ((((wordsOf text.data).filter (fun w => decide (5 < w.length))).map
    (fun w => (pyStripChars ['.', ',', '!', '?'] w).asString)).take 10)

/-- The fixed distractors of `_generate_mock_questions`
(generator.py lines 289-293). -/
def mock_distractors : List String :=
  ["Alternative concept A", "Alternative concept B", "Alternative concept C"]

/-- The fixed explanation string of `_generate_mock_questions`
(generator.py line 298). -/
def mock_explanation : String :=
  "Based on the provided text, the correct answer relates to the main concepts discussed."

/-- Iteration `i` of the `for i in range(num_questions)` loop of
`_generate_mock_questions` (generator.py lines 279-309).  When `key_terms` is
non-empty the term is `key_terms[i % len(key_terms)]`; `random.shuffle` on the
options is the `shuffle` parameter. -/
def mock_question (shuffle : List String → List String) (key_terms : List String)
    (i : ℕ) : MockQuestion :=
  match key_terms with
  | [] =>
    { question := "What is the main topic discussed in question " ++ toString (i + 1) ++ "?",
      options := shuffle ("Key concept related to main topic" :: mock_distractors),
      correct_answer := "Key concept related to main topic",
      explanation := mock_explanation,
      difficulty := "medium",
      bloom_level := "understand" }
  | t :: ts =>
    let term := (t :: ts).getD (i % (t :: ts).length) ""
    { question := "What is the significance of \x27" ++ term ++ "\x27 in the given context?",
      options := shuffle (("Key concept related to " ++ term) :: mock_distractors),
      correct_answer := "Key concept related to " ++ term,
      explanation := mock_explanation,
      difficulty := "medium",
      bloom_level := "understand" }

/-- `_generate_mock_questions` (generator.py lines 271-311). -/
def _generate_mock_questions (shuffle : List String → List String)
    (text : String) (num_questions : ℕ) : List MockQuestion :=
  (List.range num_questions).map (mock_question shuffle (mock_key_terms text))

/-- The top of `generate_mcq` (generator.py lines 39-45): when the model
failed to load, the deterministic mock generator runs on `(text,
num_questions)` alone; otherwise the model path runs, modelled here as an
opaque parameter since the claims about this function concern the fallback
branch and quantify over the model path. -/
def generate_mcq (model_loaded : Bool)
    (model_path : String → ℕ → String → List MockQuestion)
    (shuffle : List String → List String)
    (text : String) (num_questions : ℕ) (difficulty : String) : List MockQuestion :=
  if ¬ model_loaded then _generate_mock_questions shuffle text num_questions
  else model_path text num_questions difficulty

/-- `_clean_question_text` step 1 (generator.py line 194):
`re.sub(r'^(Question:|Q:)\s*', '', question_text.strip())` — the anchored
alternation tries `Question:` first, then `Q:`, and `\s*` consumes the
following whitespace run. -/
def strip_leading_label (l : List Char) : List Char :=
  if startsL "Question:".data l then (l.drop 9).dropWhile pyIsSpace
  else if startsL "Q:".data l then (l.drop 2).dropWhile pyIsSpace
  else l

/-- Does `Options?:\s*[A-D]\.` (with `re.IGNORECASE`) match at the head of
`l`?  (`.*$` with `re.DOTALL` always matches the remainder.) -/
def options_match_at (l : List Char) : Bool :=
  let afterLabel : Option (List Char) :=
    if startsL "options:".data (l.map Char.toLower) then some (l.drop 8)
    else if startsL "option:".data (l.map Char.toLower) then some (l.drop 7)
    else none
  match afterLabel with
  | none => false
  | some rest =>
    match rest.dropWhile pyIsSpace with
    | a :: dot :: _ => ('a' ≤ a.toLower && a.toLower ≤ 'd') && dot = '.'
    | _ => false

/-- Does `Answer:\s*[A-D]` (with `re.IGNORECASE`) match at the head of `l`? -/
def answer_match_at (l : List Char) : Bool :=
  if startsL "answer:".data (l.map Char.toLower) then
    match (l.drop 7).dropWhile pyIsSpace with
    | a :: _ => 'a' ≤ a.toLower && a.toLower ≤ 'd'
    | [] => false
  else false

/-- `re.sub(pat ++ ".*$", '', l)` for an unanchored pattern whose match runs
to the end of the string: find the leftmost position where `matchAt` holds and
return the prefix before it, or `none` when the pattern matches nowhere. -/
def cut_at_match (matchAt : List Char → Bool) : List Char → Option (List Char)
  | [] => none
  | c :: rest =>
    if matchAt (c :: rest) then some []
    else match cut_at_match matchAt rest with
      | some kept => some (c :: kept)
      | none => none

/-- `re.sub(r'Options?:\s*[A-D]\..*$', '', l, flags=IGNORECASE|DOTALL)`
(generator.py line 201). -/
def strip_options_section (l : List Char) : List Char :=
  match cut_at_match options_match_at l with
  | some kept => kept
  | none => l

/-- `re.sub(r'Answer:\s*[A-D].*$', '', l, flags=IGNORECASE|DOTALL)`
(generator.py line 202). -/
def strip_answer_section (l : List Char) : List Char :=
  match cut_at_match answer_match_at l with
  | some kept => kept
  | none => l

/-- `_clean_question_text` after its first two steps (generator.py lines
194-198): strip, drop a leading `Question:`/`Q:` label, and append `?` when
the text does not already end with it. -/
def question_mid (question_text : String) : List Char :=
  let t := strip_leading_label (pyStrip question_text.data)
  if t.getLast? = some '?' then t else t ++ ['?']

/-- `_clean_question_text` (generator.py lines 191-204). -/
def _clean_question_text (question_text : String) : String :=
  (pyStrip (strip_answer_section (strip_options_section
    (question_mid question_text)))).asString

/-! ## Gemini generator (`src/backend/gemini_generator.py`) -/

/-- `get_bloom_level_for_difficulty` (prompts.py lines 129-135): the first
Bloom level of the difficulty profile, `"Understand"` for unknown input. -/
def get_bloom_level_for_difficulty (difficulty : String) : String :=
  let d := pyLower difficulty
  if d = "easy" then "Remember"
  else if d = "medium" then "Understand"
  else if d = "hard" then "Analyze"
  else if d = "mixed" then "Remember"
  else "Understand"

/-- A parsed element of Gemini's JSON array as consumed by
`_structure_question`: a dict whose keys may be absent (`none`). -/
structure GQData where
  question_ : Option String
  options_ : Option (List String)
  correct_answer_ : Option String
  explanation_ : Option String
  difficulty_ : Option String
  bloom_level_ : Option String
  category_ : Option String
deriving DecidableEq

/-- The question dict built by `_structure_question`
(gemini_generator.py lines 212-223). -/
structure GeminiQuestion where
  id : ℕ
  question : String
  options : List String
  correct_answer : String
  explanation : String
  difficulty : String
  bloom_level : String
  category : String
  subject_area : String
  created_at : String
deriving DecidableEq

/-- `_structure_question` (gemini_generator.py lines 191-229): `None` is
returned when a required field is missing, when the option count is not 4, or
when the correct answer is not among the options; otherwise the structured
dict is returned.  `random.randint(1000, 9999)` is modelled by the `qid`
parameter. -/
def _structure_question (qid : ℕ) (q_data : GQData)
    (difficulty subject_area : String) : Option GeminiQuestion :=
  match q_data.question_, q_data.options_, q_data.correct_answer_, q_data.explanation_ with
  | some qt, some options, some correct_answer, some expl =>
    if options.length ≠ 4 then none
    else if ¬ options.contains correct_answer then none
    else some
      { id := qid,
        question := (pyStrip qt.data).asString,
        options := options,
        correct_answer := correct_answer,
        explanation := (pyStrip expl.data).asString,
        difficulty := pyLower (q_data.difficulty_.getD difficulty),
        bloom_level := q_data.bloom_level_.getD (get_bloom_level_for_difficulty difficulty),
        category := q_data.category_.getD subject_area,
        subject_area := subject_area,
        created_at := "2025-09-04" }
  | _, _, _, _ => none

/-- The structuring loop of `_generate_questions_with_gemini`
(gemini_generator.py lines 107-114): iterate over the parsed array, stop at
`num_questions`, and append only those records for which `_structure_question`
returned a dict — `None` results are dropped.  `qids` supplies the
`random.randint` id of each index. -/
def structure_questions (qids : ℕ → ℕ) (questions_data : List GQData)
    (num_questions : ℕ) (difficulty subject_area : String) : List GeminiQuestion :=
  ((questions_data.take num_questions).enum).filterMap
    (fun p => _structure_question (qids p.1) p.2 difficulty subject_area)



/-! ## Theorems -/

/-- **C3.** For every distractor sub-scorer and every input question record —
well-formed or malformed, including an empty options list — the score returned
by `validate_question_quality` is an integer in [0, 100]; the function is a
total Lean function, so it never raises. -/
theorem C3_validate_score_in_range (dScore : List String → String → ℤ) (q : QInput) :
    0 ≤ (validate_question_quality dScore q).score ∧
      (validate_question_quality dScore q).score ≤ 100 := by
  refine ⟨le_max_left 0 _, max_le (by norm_num) (min_le_left 100 _)⟩

/-- The duplicate-options scenario of the specification, with every other
penalty condition satisfied (question ends with a question mark, lengths in
range, explanation long enough). -/
def dupOptionsQuestion : QInput :=
  { question := "What is the capital of France?",
    options := ["Paris", "Paris", "London", "Berlin"],
    correct_answer := "Paris",
    explanation := "Paris is the capital city of France." }

/-- **C7.** On options `["Paris","Paris","London","Berlin"]` with correct
answer `"Paris"`, with no other penalty condition holding and the embedding
capability absent (so the distractor sub-score defaults to 70),
`validate_question_quality` applies exactly the duplicate-options penalty of
-25, returns score 75, and its feedback contains "Duplicate options found". -/
theorem C7_duplicate_options_penalty :
    (validate_question_quality score_distractor_quality_noModel dupOptionsQuestion).score = 75 ∧
      infixOfL "Duplicate options found".data
        (validate_question_quality score_distractor_quality_noModel
          dupOptionsQuestion).feedback.data = true := by
  decide

/-- **C8 (amended).** The `quality_metrics` mapping always contains the six
keys question_length, option_count, explanation_length, has_question_mark,
unique_options and bloom_level, and contains distractor_quality exactly when
the input has at least 4 options (the sub-score is only computed then). -/
theorem C8_quality_metrics_keys (dScore : List String → String → ℤ) (q : QInput) :
    ("question_length" ∈ ((validate_question_quality dScore q).quality_metrics.map Prod.fst) ∧
     "option_count" ∈ ((validate_question_quality dScore q).quality_metrics.map Prod.fst) ∧
     "explanation_length" ∈ ((validate_question_quality dScore q).quality_metrics.map Prod.fst) ∧
     "has_question_mark" ∈ ((validate_question_quality dScore q).quality_metrics.map Prod.fst) ∧
     "unique_options" ∈ ((validate_question_quality dScore q).quality_metrics.map Prod.fst) ∧
     "bloom_level" ∈ ((validate_question_quality dScore q).quality_metrics.map Prod.fst)) ∧
    ("distractor_quality" ∈ ((validate_question_quality dScore q).quality_metrics.map Prod.fst)
      ↔ 4 ≤ q.options.length) := by
  unfold validate_question_quality
  by_cases h : q.options.length ≥ 4
  · by_cases h2 : dScore q.options q.correct_answer < 50 <;>
      simp [h, h2]
  · simp only [ge_iff_le] at h
    simp [if_neg h, h]

/-- **C8, counterexample to the claim as stated.** On a question with an
empty options list the result's `quality_metrics` lacks the key
`distractor_quality`: the seven-key guarantee fails. -/
theorem C8_counterexample :
    "distractor_quality" ∉
      ((validate_question_quality score_distractor_quality_noModel
        { question := "", options := [], correct_answer := "", explanation := "" }
        ).quality_metrics.map Prod.fst) := by
  decide

/-- `String.mk` of a string's own character list gives the string back. -/
theorem asString_data (s : String) : s.data.asString = s := by
  cases s; rfl

/-- The sentence loop of `preprocess_text` emits no chunk and keeps its
running word count below 200 whenever the word counts of the remaining
sentences cannot bring the accumulator to 200. -/
theorem chunkFold_short (sentences : List (List Char)) (st : ChunkState)
    (hchunks : st.chunks = [])
    (hsum : st.cnt + ((sentences.map (fun s => (wordsOf s).length)).sum) < 200) :
    (sentences.foldl chunkStep st).chunks = [] ∧
      (sentences.foldl chunkStep st).cnt < 200 := by
  induction sentences generalizing st with
  | nil =>
    simp only [List.foldl_nil]
    constructor
    · exact hchunks
    · simpa using hsum
  | cons s rest ih =>
    simp only [List.map_cons, List.sum_cons] at hsum
    have hcond : ¬ (st.cnt + (wordsOf s).length > 300 ∧ ¬ st.cur.isEmpty = true) := by
      rintro ⟨h1, -⟩
      omega
    simp only [List.foldl_cons]
    have hstep : chunkStep st s =
        { chunks := st.chunks, cur := st.cur ++ [s], cnt := st.cnt + (wordsOf s).length } := by
      simp only [chunkStep]
      rw [if_neg hcond]
    rw [hstep]
    exact ih _ hchunks (by simpa using (by omega :
      st.cnt + (wordsOf s).length + (rest.map (fun s => (wordsOf s).length)).sum < 200))

/-- **C4.** For every non-empty input text, `preprocess_text` returns a
non-empty list of chunks; and when no accumulated chunk can reach 200 words
(the sentence word counts sum to less than 200), it returns exactly one chunk
equal to the cleaned full text. -/
theorem C4_preprocess_nonempty_short_single_chunk (text : String) (hne : text ≠ "") :
    preprocess_text text ≠ [] ∧
      (sentenceWordSum (clean_text text) < 200 →
        preprocess_text text = [clean_text text]) := by
  constructor
  · dsimp only [preprocess_text]
    generalize (if ¬ (List.foldl chunkStep ⟨[], [], 0⟩
        (sentencesOf (clean_text text))).cur.isEmpty ∧
        (List.foldl chunkStep ⟨[], [], 0⟩ (sentencesOf (clean_text text))).cnt ≥ 200 then
        (List.foldl chunkStep ⟨[], [], 0⟩ (sentencesOf (clean_text text))).chunks ++
          [joinSentences (List.foldl chunkStep ⟨[], [], 0⟩
            (sentencesOf (clean_text text))).cur]
      else (List.foldl chunkStep ⟨[], [], 0⟩ (sentencesOf (clean_text text))).chunks) = c
    rcases c with - | ⟨x, xs⟩ <;> simp
  · intro hsum
    have h := chunkFold_short (sentencesOf (clean_text text)) ⟨[], [], 0⟩ rfl
      (by simpa [sentenceWordSum] using hsum)
    have hcond : ¬ (¬ (List.foldl chunkStep ⟨[], [], 0⟩
        (sentencesOf (clean_text text))).cur.isEmpty ∧
        (List.foldl chunkStep ⟨[], [], 0⟩ (sentencesOf (clean_text text))).cnt ≥ 200) := by
      rintro ⟨-, h2⟩
      omega
    dsimp only [preprocess_text]
    rw [if_neg hcond, h.1]
    simp [asString_data]

/-- The short-text scenario of the specification. -/
def mitoText : String :=
  "The mitochondria is the powerhouse of the cell. It produces ATP through respiration."

/-- Witness for C4: on the specification's short scenario text the hypotheses
hold and `preprocess_text` returns exactly the cleaned full text as its one
chunk. -/
theorem C4_preprocess_nonempty_short_single_chunk_witness :
    preprocess_text mitoText ≠ [] ∧ preprocess_text mitoText = [clean_text mitoText] := by
  have h := C4_preprocess_nonempty_short_single_chunk mitoText (by decide)
  exact ⟨h.1, h.2 (by decide)⟩

/-- **C9.** For every ranking permutation (modelling the float-score sort) and
every input text, `extract_key_concepts` returns at most 10 terms with no
duplicates, and every returned term is an alphabetic token of the cleaned,
lowercased input of length ≥ 2 that is not in the stop-word set. -/
theorem C9_extract_key_concepts_sound
    (rank : List (String × ℕ) → List (String × ℕ))
    (hrank : ∀ l, (rank l).Perm l) (text : String) :
    (extract_key_concepts rank text).length ≤ 10 ∧
      (extract_key_concepts rank text).Nodup ∧
      ∀ w ∈ extract_key_concepts rank text,
        w ∈ tokensOf text ∧ w ∉ stop_words ∧ 2 ≤ w.length := by
  have hperm := hrank ((meaningful_words text).dedup.map
    (fun w => (w, (meaningful_words text).count w)))
  refine ⟨?_, ?_, ?_⟩
  · simp only [extract_key_concepts, List.length_map, List.length_take]
    exact min_le_left 10 _
  · simp only [extract_key_concepts]
    have hkeys : (((meaningful_words text).dedup.map
        (fun w => (w, (meaningful_words text).count w))).map Prod.fst).Nodup := by
      simp only [List.map_map]
      have : (Prod.fst ∘ fun w => (w, (meaningful_words text).count w)) = id := rfl
      rw [this, List.map_id]
      exact List.nodup_dedup _
    have hall : ((rank ((meaningful_words text).dedup.map
        (fun w => (w, (meaningful_words text).count w)))).map Prod.fst).Nodup :=
      ((hperm.map Prod.fst).nodup_iff).mpr hkeys
    exact ((List.take_sublist 10 _).map Prod.fst).nodup hall
  · intro w hw
    simp only [extract_key_concepts, List.mem_map] at hw
    obtain ⟨p, hp, rfl⟩ := hw
    have hpmem : p ∈ rank ((meaningful_words text).dedup.map
        (fun w => (w, (meaningful_words text).count w))) := List.mem_of_mem_take hp
    have hpitems := hperm.mem_iff.mp hpmem
    simp only [List.mem_map] at hpitems
    obtain ⟨w', hw', rfl⟩ := hpitems
    dsimp only
    have hmean : w' ∈ meaningful_words text := List.mem_dedup.mp hw'
    simp only [meaningful_words, List.mem_filter, Bool.and_eq_true, Bool.not_eq_true',
      decide_eq_true_eq] at hmean
    obtain ⟨htok, hstop, hlen⟩ := hmean
    refine ⟨htok, ?_, by omega⟩
    intro hmem
    have h1 : stop_words.contains w' = true := (List.elem_iff).mpr hmem
    simp at h1 hstop
    exact hstop h1

/-- Witness for C9: the identity ranking permutes every list, and on the
scenario text the conclusion evaluates. -/
theorem C9_extract_key_concepts_sound_witness :
    (extract_key_concepts id mitoText).length ≤ 10 ∧
      (extract_key_concepts id mitoText).Nodup ∧
      ∀ w ∈ extract_key_concepts id mitoText,
        w ∈ tokensOf mitoText ∧ w ∉ stop_words ∧ 2 ≤ w.length :=
  C9_extract_key_concepts_sound id (fun l => List.Perm.refl l) mitoText

/-- The head of `"Key concept related to " ++ t` is `'K'`. -/
theorem key_concept_head (t : String) :
    ("Key concept related to " ++ t).data.head? = some 'K' := by
  rw [String.data_append]
  have h : ("Key concept related to ").data = 'K' :: "ey concept related to ".data := by
    decide
  rw [h]
  rfl

/-- A string whose first character is `'K'` differs from any string whose
first character is `'A'`; the mock correct answer is therefore distinct from
every mock distractor. -/
theorem key_concept_ne (t d : String) (hd : d.data.head? = some 'A') :
    ("Key concept related to " ++ t) ≠ d := by
  intro h
  have hk := key_concept_head t
  rw [h, hd] at hk
  exact absurd hk (by decide)

/-- Every question produced by an iteration of the mock-question loop has 4
options, its correct answer among them, and pairwise distinct options, for
any permutation behaviour of `random.shuffle`. -/
theorem mock_question_invariants (shuffle : List String → List String)
    (hs : ∀ l, (shuffle l).Perm l) (key_terms : List String) (i : ℕ) :
    (mock_question shuffle key_terms i).options.length = 4 ∧
      (mock_question shuffle key_terms i).correct_answer ∈
        (mock_question shuffle key_terms i).options ∧
      (mock_question shuffle key_terms i).options.Nodup := by
  cases key_terms with
  | nil =>
    simp only [mock_question]
    have hp := hs ("Key concept related to main topic" :: mock_distractors)
    exact ⟨by rw [hp.length_eq]; rfl,
      hp.mem_iff.mpr (List.mem_cons_self _ _),
      (hp.nodup_iff).mpr (by decide)⟩
  | cons t ts =>
    simp only [mock_question]
    have hp := hs (("Key concept related to " ++
      (t :: ts).getD (i % (t :: ts).length) "") :: mock_distractors)
    refine ⟨by rw [hp.length_eq]; rfl,
      hp.mem_iff.mpr (List.mem_cons_self _ _), (hp.nodup_iff).mpr ?_⟩
    refine List.nodup_cons.mpr ⟨?_, by decide⟩
    intro hmem
    simp only [mock_distractors, List.mem_cons, List.not_mem_nil, or_false] at hmem
    rcases hmem with h | h | h
    · exact key_concept_ne _ _ (by decide) h
    · exact key_concept_ne _ _ (by decide) h
    · exact key_concept_ne _ _ (by decide) h

/-- **C2.** With the generation capability unavailable (`model_loaded =
False`), `generate_mcq` returns exactly `num_questions` question records for
every input text (including the empty text) and every `num_questions ≥ 1`;
each record has 4 pairwise distinct options containing its correct answer;
and the result does not depend on the model path, i.e. no external generation
call is consulted.  The fallback is a total Lean function, so it never
raises. -/
theorem C2_fallback_mock_generation
    (model_path : String → ℕ → String → List MockQuestion)
    (shuffle : List String → List String) (hs : ∀ l, (shuffle l).Perm l)
    (text : String) (num_questions : ℕ) (hn : 1 ≤ num_questions)
    (difficulty : String) :
    (generate_mcq false model_path shuffle text num_questions difficulty).length
        = num_questions ∧
      (∀ q ∈ generate_mcq false model_path shuffle text num_questions difficulty,
        q.options.length = 4 ∧ q.correct_answer ∈ q.options ∧ q.options.Nodup) ∧
      ∀ model_path2,
        generate_mcq false model_path shuffle text num_questions difficulty =
          generate_mcq false model_path2 shuffle text num_questions difficulty := by
  refine ⟨?_, ?_, fun _ => rfl⟩
  · simp [generate_mcq, _generate_mock_questions]
  · intro q hq
    simp only [generate_mcq, Bool.false_eq_true, not_false_eq_true, if_true,
      _generate_mock_questions, List.mem_map, List.mem_range] at hq
    obtain ⟨i, -, rfl⟩ := hq
    exact mock_question_invariants shuffle hs _ i

/-- Witness for C2 at concrete inputs: identity shuffle, the scenario text,
five requested questions, and the first returned record. -/
theorem C2_fallback_mock_generation_witness :
    (generate_mcq false (fun _ _ _ => []) id mitoText 5 "medium").length = 5 ∧
      ((mock_question id (mock_key_terms mitoText) 0).options.length = 4 ∧
        (mock_question id (mock_key_terms mitoText) 0).correct_answer ∈
          (mock_question id (mock_key_terms mitoText) 0).options ∧
        (mock_question id (mock_key_terms mitoText) 0).options.Nodup) := by
  have h := C2_fallback_mock_generation (fun _ _ _ => []) id
    (fun l => List.Perm.refl l) mitoText 5 (by norm_num) "medium"
  exact ⟨h.1, h.2.1 (mock_question id (mock_key_terms mitoText) 0) (by decide)⟩

/-- **C10.** In the mock/fallback generation path every returned question
record has difficulty "medium" and bloom level "understand", and the
requested difficulty argument has no effect on the returned list at all. -/
theorem C10_fallback_ignores_difficulty
    (model_path : String → ℕ → String → List MockQuestion)
    (shuffle : List String → List String) (text : String) (num_questions : ℕ)
    (difficulty : String) :
    (∀ q ∈ generate_mcq false model_path shuffle text num_questions difficulty,
      q.difficulty = "medium" ∧ q.bloom_level = "understand") ∧
      ∀ difficulty2,
        generate_mcq false model_path shuffle text num_questions difficulty =
          generate_mcq false model_path shuffle text num_questions difficulty2 := by
  refine ⟨?_, fun _ => rfl⟩
  intro q hq
  simp only [generate_mcq, Bool.false_eq_true, not_false_eq_true, if_true,
    _generate_mock_questions, List.mem_map, List.mem_range] at hq
  obtain ⟨i, -, rfl⟩ := hq
  cases mock_key_terms text with
  | nil => exact ⟨rfl, rfl⟩
  | cons t ts => exact ⟨rfl, rfl⟩

/-- Witness for C10 at concrete inputs: the first fallback record for a
"hard" request still carries difficulty "medium" and bloom level
"understand". -/
theorem C10_fallback_ignores_difficulty_witness :
    (mock_question id (mock_key_terms mitoText) 0).difficulty = "medium" ∧
      (mock_question id (mock_key_terms mitoText) 0).bloom_level = "understand" :=
  (C10_fallback_ignores_difficulty (fun _ _ _ => []) id mitoText 1 "hard").1
    (mock_question id (mock_key_terms mitoText) 0) (by decide)

/-- Each iteration of the distractor loop appends exactly one string. -/
theorem distractorStep_length (gen : ℕ → String → Option String)
    (prompt correct_answer : String) (distractors : List String) (i : ℕ) :
    (distractorStep gen prompt correct_answer distractors i).length =
      distractors.length + 1 := by
  cases hg : gen i prompt with
  | none => simp [distractorStep, hg]
  | some t =>
    simp only [distractorStep, hg]
    split <;> simp

/-- The padding loop does nothing on a list that already has three
elements. -/
theorem pad_distractors_of_three (l : List String) (h : l.length = 3) :
    pad_distractors l = l := by
  unfold pad_distractors pad_distractors_loop
  simp [h]

/-- `_generate_enhanced_distractors` always returns exactly 3 distractors. -/
theorem _generate_enhanced_distractors_length (gen : ℕ → String → Option String)
    (correct_answer context difficulty subject_area : String) :
    (_generate_enhanced_distractors gen correct_answer context difficulty
      subject_area).length = 3 := by
  have h3 : ([0, 1, 2].foldl (distractorStep gen
      (get_distractor_prompt (distractor_type_for difficulty) correct_answer context)
      correct_answer) []).length = 3 := by
    simp only [List.foldl_cons, List.foldl_nil]
    rw [distractorStep_length, distractorStep_length, distractorStep_length]
    rfl
  dsimp only [_generate_enhanced_distractors]
  rw [pad_distractors_of_three _ h3, List.length_take, h3]
  rfl

/-- **C1 (amended).** Every question record assembled by the generator — in
the model path as well as in the mock fallback path — has exactly 4 options
with the correct answer an exact member of them; in the mock fallback path
the 4 options are moreover pairwise distinct, but in the model path
distinctness can fail when generated distractor text collides with a
synthetic fallback string (see the counterexample). -/
theorem C1_generator_options_invariants
    (shuffle : List String → List String) (hs : ∀ l, (shuffle l).Perm l)
    (gen : ℕ → String → Option String)
    (raw_answer context difficulty subject_area text : String)
    (num_questions : ℕ) :
    ((model_path_options shuffle gen raw_answer context difficulty
        subject_area).2.length = 4 ∧
      (model_path_options shuffle gen raw_answer context difficulty
        subject_area).1 ∈
        (model_path_options shuffle gen raw_answer context difficulty
          subject_area).2) ∧
      ∀ q ∈ _generate_mock_questions shuffle text num_questions,
        q.options.length = 4 ∧ q.correct_answer ∈ q.options ∧ q.options.Nodup := by
  refine ⟨?_, ?_⟩
  · simp only [model_path_options]
    have hp := hs (⟨pyStrip raw_answer.data⟩ ::
      _generate_enhanced_distractors gen (⟨pyStrip raw_answer.data⟩ : String)
        context difficulty subject_area)
    constructor
    · rw [hp.length_eq]
      simp [_generate_enhanced_distractors_length]
    · exact hp.mem_iff.mpr (List.mem_cons_self _ _)
  · intro q hq
    simp only [_generate_mock_questions, List.mem_map, List.mem_range] at hq
    obtain ⟨i, -, rfl⟩ := hq
    exact mock_question_invariants shuffle hs _ i

/-- **C1, counterexample to the claim as stated.** When the model emits the
string "Alternative option 2" for the first two distractor calls, the first
is accepted and the second is rejected as a duplicate — but its synthetic
replacement is the identical string "Alternative option 2", so the assembled
options list (here with the identity shuffle outcome) contains a duplicate:
the all-options-distinct part of the claim fails on the model path. -/
theorem C1_counterexample :
    (model_path_options id (fun _ _ => some "Alternative option 2")
        "x" "" "medium" "general").2 =
      ["x", "Alternative option 2", "Alternative option 2", "Alternative option 3"] ∧
      ¬ (model_path_options id (fun _ _ => some "Alternative option 2")
        "x" "" "medium" "general").2.Nodup := by
  decide

/-- Witness for C1 at concrete inputs: identity shuffle, an oracle whose
calls all raise, and the first mock record for the scenario text. -/
theorem C1_generator_options_invariants_witness :
    ((model_path_options id (fun _ _ => none) "x" "" "medium" "general").2.length = 4 ∧
      (model_path_options id (fun _ _ => none) "x" "" "medium" "general").1 ∈
        (model_path_options id (fun _ _ => none) "x" "" "medium" "general").2) ∧
      ((mock_question id (mock_key_terms mitoText) 0).options.length = 4 ∧
        (mock_question id (mock_key_terms mitoText) 0).correct_answer ∈
          (mock_question id (mock_key_terms mitoText) 0).options ∧
        (mock_question id (mock_key_terms mitoText) 0).options.Nodup) := by
  have h := C1_generator_options_invariants id (fun l => List.Perm.refl l)
    (fun _ _ => none) "x" "" "medium" "general" mitoText 1
  exact ⟨h.1, h.2 (mock_question id (mock_key_terms mitoText) 0) (by decide)⟩

/-- Dropping a prefix either empties the list or preserves its last
element. -/
theorem getLast?_dropWhile (p : Char → Bool) (l : List Char) :
    List.dropWhile p l = [] ∨ (List.dropWhile p l).getLast? = l.getLast? := by
  induction l with
  | nil => left; rfl
  | cons c t ih =>
    rw [List.dropWhile_cons]
    split
    · rcases ih with h | h
      · left; exact h
      · by_cases ht : t = []
        · left; simp [ht]
        · right
          obtain ⟨x, xs, rfl⟩ := List.exists_cons_of_ne_nil ht
          rw [List.getLast?_cons_cons]
          exact h
    · right; rfl

/-- `str.strip()` preserves a trailing question mark. -/
theorem pyStrip_getLast_qmark (l : List Char) (h : l.getLast? = some '?') :
    (pyStrip l).getLast? = some '?' := by
  unfold pyStrip
  rw [List.getLast?_reverse]
  have hne : List.dropWhile pyIsSpace l ≠ [] := by
    intro h0
    rw [List.dropWhile_eq_nil_iff] at h0
    have hqm : '?' ∈ l := List.mem_of_mem_getLast? h
    have := h0 _ hqm
    simp [pyIsSpace] at this
  have hlast : (List.dropWhile pyIsSpace l).getLast? = some '?' := by
    rcases getLast?_dropWhile pyIsSpace l with h1 | h1
    · exact absurd h1 hne
    · rw [h1, h]
  have hhead : (List.dropWhile pyIsSpace l).reverse.head? = some '?' := by
    rw [List.head?_reverse]
    exact hlast
  rcases hr : (List.dropWhile pyIsSpace l).reverse with - | ⟨a, r⟩
  · rw [hr] at hhead
    exact absurd hhead (by simp)
  · rw [hr] at hhead
    simp only [List.head?_cons, Option.some.injEq] at hhead
    subst hhead
    rw [List.dropWhile_cons]
    simp [pyIsSpace]

/-- The label-stripped, question-mark-forced intermediate text of
`_clean_question_text` always ends with a question mark. -/
theorem question_mid_getLast (question_text : String) :
    (question_mid question_text).getLast? = some '?' := by
  dsimp only [question_mid]
  split
  · assumption
  · exact List.getLast?_concat _

/-- **C5 (amended).** Whenever neither the `Options:` nor the `Answer:`
section pattern matches anywhere in the label-stripped, question-mark-forced
text, `_clean_question_text` returns a string ending in a question mark.
(When one of the patterns does match, the substitution deletes from the match
to the end of the string and can remove the forced question mark, even
producing the empty string — see the counterexample.) -/
theorem C5_clean_question_text_ends_qmark (question_text : String)
    (h1 : cut_at_match options_match_at (question_mid question_text) = none)
    (h2 : cut_at_match answer_match_at (question_mid question_text) = none) :
    (_clean_question_text question_text).data.getLast? = some '?' := by
  unfold _clean_question_text strip_options_section
  rw [h1]
  unfold strip_answer_section
  rw [h2]
  show (pyStrip (question_mid question_text)).getLast? = some '?'
  exact pyStrip_getLast_qmark _ (question_mid_getLast question_text)

/-- **C5, counterexample to the claim as stated.** On the model output
"Options: A. foo" the cleanup first appends the forced question mark, but the
Options-section substitution then deletes the entire string, so the result is
empty and does not end with a question mark. -/
theorem C5_counterexample :
    _clean_question_text "Options: A. foo" = "" ∧
      (_clean_question_text "Options: A. foo").data.getLast? ≠ some '?' := by
  decide

/-- Witness for C5: on a model output without any Options/Answer section the
hypotheses hold and the cleaned text ends with a question mark. -/
theorem C5_clean_question_text_ends_qmark_witness :
    (_clean_question_text "Question: What is photosynthesis").data.getLast? = some '?' :=
  C5_clean_question_text_ends_qmark "Question: What is photosynthesis"
    (by decide) (by decide)

/-- A malformed parsed record: three options instead of four. -/
def malformedGQ : GQData :=
  { question_ := some "Is this malformed?",
    options_ := some ["A", "B", "C"],
    correct_answer_ := some "A",
    explanation_ := some "Only three options here.",
    difficulty_ := none, bloom_level_ := none, category_ := none }

/-- **C6, counterexample to the claim as stated.** A structurally malformed
question record (three options) is silently discarded by the Gemini path:
`_structure_question` returns `None` for it and the structuring loop of
`_generate_questions_with_gemini` appends nothing, so the record never
reaches the validator. -/
theorem C6_counterexample :
    _structure_question 1000 malformedGQ "medium" "general" = none ∧
      structure_questions (fun _ => 1000) [malformedGQ] 5 "medium" "general" = [] := by
  decide

/-- **C6 (amended).** In the Gemini generation path a structurally malformed
question — wrong option count, or correct answer not among the options — is
silently dropped before validation: `_structure_question` returns `None` for
it and the structuring loop appends nothing; every record that survives the
loop satisfies the 4-option and correct-answer-membership invariants. -/
theorem C6_malformed_questions_dropped (qids : ℕ → ℕ)
    (questions_data : List GQData) (num_questions : ℕ)
    (difficulty subject_area : String) :
    (∀ (qid : ℕ) (q_data : GQData) (opts : List String),
      q_data.options_ = some opts → opts.length ≠ 4 →
        _structure_question qid q_data difficulty subject_area = none) ∧
    (∀ (qid : ℕ) (q_data : GQData) (opts : List String) (ca : String),
      q_data.options_ = some opts → q_data.correct_answer_ = some ca → ca ∉ opts →
        _structure_question qid q_data difficulty subject_area = none) ∧
    ∀ q ∈ structure_questions qids questions_data num_questions difficulty subject_area,
      q.options.length = 4 ∧ q.correct_answer ∈ q.options := by
  refine ⟨?_, ?_, ?_⟩
  · intro qid q_data opts hopts hbad
    obtain ⟨q?, o?, c?, e?, d?, b?, cat?⟩ := q_data
    simp only at hopts
    subst hopts
    cases q? <;> cases c? <;> cases e? <;>
      simp [_structure_question, hbad]
  · intro qid q_data opts ca hopts hca hbad
    obtain ⟨q?, o?, c?, e?, d?, b?, cat?⟩ := q_data
    simp only at hopts hca
    subst hopts
    subst hca
    have hcon : ¬ (opts.contains ca = true) := fun h => hbad (List.elem_iff.mp h)
    cases q? <;> cases e? <;> simp only [_structure_question] <;> try rfl
    all_goals
      split
      all_goals first
        | rfl
        | rw [if_pos hcon]
  · intro q hq
    simp only [structure_questions, List.mem_filterMap] at hq
    obtain ⟨⟨i, qd⟩, -, hsome⟩ := hq
    obtain ⟨q?, o?, c?, e?, d?, b?, cat?⟩ := qd
    cases q? <;> cases o? <;> cases c? <;> cases e? <;>
        simp only [_structure_question] at hsome <;>
      try exact Option.noConfusion hsome
    rename_i qt opts ca ex
    by_cases h4 : opts.length ≠ 4
    · rw [if_pos h4] at hsome
      exact Option.noConfusion hsome
    · rw [if_neg h4] at hsome
      by_cases hc : ¬ (opts.contains ca = true)
      · rw [if_pos hc] at hsome
        exact Option.noConfusion hsome
      · rw [if_neg hc] at hsome
        have hq := Option.some.inj hsome
        subst hq
        exact ⟨not_not.mp h4, List.elem_iff.mp (not_not.mp hc)⟩

/-- A malformed parsed record: the correct answer is not among the four
options. -/
def wrongAnswerGQ : GQData :=
  { question_ := some "Which city is the capital of Spain?",
    options_ := some ["Paris", "London", "Berlin", "Rome"],
    correct_answer_ := some "Madrid",
    explanation_ := some "Madrid is the capital of Spain.",
    difficulty_ := none, bloom_level_ := none, category_ := none }

/-- A well-formed parsed record. -/
def wellFormedGQ : GQData :=
  { question_ := some "Why does the Sun shine?",
    options_ := some ["Fusion", "Fission", "Combustion", "Friction"],
    correct_answer_ := some "Fusion",
    explanation_ := some "Hydrogen fusion powers the Sun.",
    difficulty_ := none, bloom_level_ := none, category_ := none }

/-- The structured record produced for `wellFormedGQ` with id 42. -/
def wellFormedStructured : GeminiQuestion :=
  { id := 42, question := "Why does the Sun shine?",
    options := ["Fusion", "Fission", "Combustion", "Friction"],
    correct_answer := "Fusion",
    explanation := "Hydrogen fusion powers the Sun.",
    difficulty := "medium", bloom_level := "Understand",
    category := "general", subject_area := "general",
    created_at := "2025-09-04" }

/-- Witness for C6 at concrete inputs: a wrong-option-count record and a
correct-answer-missing record are both dropped, and a surviving structured
record satisfies the invariants. -/
theorem C6_malformed_questions_dropped_witness :
    _structure_question 1001 malformedGQ "medium" "general" = none ∧
      _structure_question 1002 wrongAnswerGQ "medium" "general" = none ∧
      (wellFormedStructured.options.length = 4 ∧
        wellFormedStructured.correct_answer ∈ wellFormedStructured.options) := by
  have h := C6_malformed_questions_dropped (fun _ => 42) [wellFormedGQ] 5 "medium" "general"
  exact ⟨h.1 1001 malformedGQ ["A", "B", "C"] rfl (by decide),
    h.2.1 1002 wrongAnswerGQ ["Paris", "London", "Berlin", "Rome"] "Madrid" rfl rfl (by decide),
    h.2.2 wellFormedStructured (by decide)⟩
